import Mathlib

/-!
Verification of the geometry solver and compositor of `ar_render.py`.

Modelling conventions:
* Python floats are modelled as exact rationals (`ℚ`).
* Python `int(...)` applied to a float truncates toward zero; this is `pyInt`.
* A Python `ZeroDivisionError` is modelled by returning `none` from the
  solver (`compute_object_size_px`) and by the `PasteError.zeroDivision`
  outcome of the compositor (`paste_object`).
* `numpy` images are modelled as dimensions plus a total pixel function;
  `astype(np.uint8)` is truncation followed by wrap-around modulo 256.
* `cv2.resize` is an external collaborator; it is passed to `paste_object`
  as a function argument.  Its one behaviour that matters here is that it
  raises `cv2.error` when the requested destination size is empty
  (width below one); that raise is modelled by `PasteError.resizeEmpty`.
-/

/-- Camera and scene geometry, `CameraParams` of ar_render.py (lines 22-54).
All fields are Python floats, modelled as rationals. -/
structure CameraParams where
  focal_length_mm : ℚ
  sensor_width_mm : ℚ
  sensor_height_mm : ℚ
  camera_height_mm : ℚ
  ground_distance_mm : ℚ

/-- Python `int(q)` for a real argument: truncation toward zero. -/
def pyInt (q : ℚ) : ℤ :=
  if q < 0 then -(Int.floor (-q)) else Int.floor q

/-- The cast `astype(np.uint8)` applied to a float: C-style truncation toward
zero followed by wrap-around modulo 256. -/
def npUint8 (q : ℚ) : ℕ :=
  ((pyInt q) % 256).toNat

/-- `pixel_per_mm = bg_height_px / camera.sensor_height_mm`
(ar_render.py line 122). -/
def pixel_per_mm (camera : CameraParams) (bg_height_px : ℤ) : ℚ :=
  (bg_height_px : ℚ) / camera.sensor_height_mm

/-- `x_y_mm = (bg_height_px - y_px) / pixel_per_mm` (ar_render.py line 127). -/
def x_y_mm (camera : CameraParams) (bg_height_px y_px : ℤ) : ℚ :=
  ((bg_height_px : ℚ) - (y_px : ℚ)) / pixel_per_mm camera bg_height_px

/-- `x_r_mm = focal_length_mm * camera_height_mm / (sensor_height_mm / 2 - x_y_mm)
- ground_distance_mm` (ar_render.py lines 134-138). -/
def x_r_mm (camera : CameraParams) (bg_height_px y_px : ℤ) : ℚ :=
  camera.focal_length_mm * camera.camera_height_mm
      / (camera.sensor_height_mm / 2 - x_y_mm camera bg_height_px y_px)
    - camera.ground_distance_mm

/-- `h_mm = (sensor_height_mm / 2) - x_y_mm
- focal_length_mm * (camera_height_mm - H_mm) / (ground_distance_mm + x_r_mm)`
with `H_mm = object_height_m * 1000` (ar_render.py lines 119, 141-146). -/
def h_mm (camera : CameraParams) (bg_height_px y_px : ℤ) (object_height_m : ℚ) : ℚ :=
  camera.sensor_height_mm / 2 - x_y_mm camera bg_height_px y_px
    - camera.focal_length_mm * (camera.camera_height_mm - object_height_m * 1000)
      / (camera.ground_distance_mm + x_r_mm camera bg_height_px y_px)

/-- `compute_object_size_px` (ar_render.py lines 82-148).

`none` models a Python `ZeroDivisionError`: raised when
`sensor_height_mm = 0` (the division on line 122), when `pixel_per_mm = 0`
(line 127), when `sensor_height_mm / 2 - x_y_mm = 0` (line 136) or when
`ground_distance_mm + x_r_mm = 0` (line 145).  The guard of line 130 uses a
strict comparison, so it does not cover the case
`x_y_mm = sensor_height_mm / 2`. -/
def compute_object_size_px (camera : CameraParams) (bg_height_px y_px : ℤ)
    (object_height_m : ℚ) : Option ℤ :=
  if camera.sensor_height_mm = 0 then none
  else if pixel_per_mm camera bg_height_px = 0 then none
  else if x_y_mm camera bg_height_px y_px > camera.sensor_height_mm / 2 then some 0
  else if camera.sensor_height_mm / 2 - x_y_mm camera bg_height_px y_px = 0 then none
  else if camera.ground_distance_mm + x_r_mm camera bg_height_px y_px = 0 then none
  else some (pyInt (h_mm camera bg_height_px y_px object_height_m
    * pixel_per_mm camera bg_height_px))

/-- A BGR colour image: height, width and an 8-bit value for every
row, column and channel. -/
structure ColorImage where
  h : ℕ
  w : ℕ
  px : ℤ → ℤ → Fin 3 → ℕ

/-- An alpha mask: height, width and a normalized opacity for every
row and column. -/
structure AlphaMask where
  h : ℕ
  w : ℕ
  px : ℤ → ℤ → ℚ

/-- The failure outcomes of `paste_object`:
* `aboveHorizon` is the `ValueError` of ar_render.py lines 199-202;
* `outOfBounds` is the `ValueError` of ar_render.py lines 220-221;
* `resizeEmpty` is the `cv2.error` raised by `cv2.resize` (line 210) when
  the destination width is not positive;
* `zeroDivision` is a propagated `ZeroDivisionError` (from the solver, or
  from `aspect = orig_w / orig_h` on line 206 when `orig_h = 0`). -/
inductive PasteError where
  | aboveHorizon : PasteError
  | outOfBounds : PasteError
  | resizeEmpty : PasteError
  | zeroDivision : PasteError

/-- `target_w = int(aspect * target_h)` with `aspect = orig_w / orig_h`
(ar_render.py lines 206-207). -/
def targetWidth (orig_w orig_h : ℕ) (target_h : ℤ) : ℤ :=
  pyInt ((orig_w : ℚ) / (orig_h : ℚ) * (target_h : ℚ))

/-- `background.copy()` (ar_render.py line 224): a fresh buffer holding the
same dimensions and pixel values. -/
def npCopy (img : ColorImage) : ColorImage :=
  ⟨img.h, img.w, img.px⟩

/-- `result[top:bottom, left:right] = v` (ar_render.py line 234): overwrite
the rectangle with values indexed from its own top-left corner. -/
def sliceAssign (img : ColorImage) (top bottom left right : ℤ)
    (v : ℤ → ℤ → Fin 3 → ℕ) : ColorImage :=
  ⟨img.h, img.w, fun i j c =>
    if top ≤ i ∧ i < bottom ∧ left ≤ j ∧ j < right then v (i - top) (j - left) c
    else img.px i j c⟩

/-- One channel of the alpha blend of ar_render.py lines 229-232:
`(object * alpha + roi * (1 - alpha)).astype(np.uint8)`. -/
def blendPixel (objc : ℕ) (alpha : ℚ) (bgc : ℕ) : ℕ :=
  npUint8 ((objc : ℚ) * alpha + (bgc : ℚ) * (1 - alpha))

/-- The composite produced on the success path of `paste_object`
(ar_render.py lines 223-235): copy the background, then assign the blended
rectangle into the copy. -/
def composedImage (background rc : ColorImage) (ra : AlphaMask)
    (top bottom left right : ℤ) : ColorImage :=
  sliceAssign (npCopy background) top bottom left right
    (fun di dj c =>
      blendPixel (rc.px di dj c) (ra.px di dj)
        ((npCopy background).px (top + di) (left + dj) c))

/-- `paste_object` (ar_render.py lines 151-235).

`resize_bgr` and `resize_alpha` stand for the external `cv2.resize` calls of
lines 210-211 (cubic for colour, linear for alpha); apart from dimensions
their output is not interpreted here.  `cv2.resize` raises on an empty
destination size, which happens exactly when `target_w` is not positive
(`target_h` is already known positive there); this is `resizeEmpty`.
`Int.fdiv` is Python floor division `//` (line 216). -/
def paste_object (background object_bgr : ColorImage) (object_alpha : AlphaMask)
    (location : ℤ × ℤ) (object_height_m : ℚ) (camera : CameraParams)
    (resize_bgr : ColorImage → ℕ → ℕ → ColorImage)
    (resize_alpha : AlphaMask → ℕ → ℕ → AlphaMask) :
    Except PasteError ColorImage :=
  let y_px := location.1
  let x_px := location.2
  let bg_h := background.h
  let bg_w := background.w
  match compute_object_size_px camera (bg_h : ℤ) y_px object_height_m with
  | none => .error .zeroDivision
  | some target_h =>
    if target_h ≤ 0 then .error .aboveHorizon
    else if object_bgr.h = 0 then .error .zeroDivision
    else
      let target_w := targetWidth object_bgr.w object_bgr.h target_h
      if target_w ≤ 0 then .error .resizeEmpty
      else
        let resized_bgr := resize_bgr object_bgr target_w.toNat target_h.toNat
        let resized_alpha := resize_alpha object_alpha target_w.toNat target_h.toNat
        let top := y_px - target_h
        let bottom := y_px
        let left := x_px - Int.fdiv target_w 2
        let right := left + target_w
        if top < 0 ∨ bottom > (bg_h : ℤ) ∨ left < 0 ∨ right > (bg_w : ℤ) then
          .error .outOfBounds
        else
          .ok (composedImage background resized_bgr resized_alpha top bottom left right)

/-- The reference camera of main.py lines 100-106: focal length 15 mm,
sensor 36 x 24 mm, camera height 1600 mm, ground distance 2000 mm. -/
def refCamera : CameraParams :=
  ⟨15, 36, 24, 1600, 2000⟩

/-- The pixel density formula of the specification:
`ppm = bg_height_px / sensor_height_mm`. -/
def spec_ppm (camera : CameraParams) (bg_height_px : ℤ) : ℚ :=
  (bg_height_px : ℚ) / camera.sensor_height_mm

/-- The sensor-centred coordinate formula of the specification:
`y_sensor_mm = (bg_height_px - y_px) * sensor_height_mm / bg_height_px`. -/
def spec_y_sensor_mm (camera : CameraParams) (bg_height_px y_px : ℤ) : ℚ :=
  ((bg_height_px : ℚ) - (y_px : ℚ)) * camera.sensor_height_mm / (bg_height_px : ℚ)

/-- The implied ground distance formula of the specification:
`ground_range_mm = focal_length_mm * camera_height_mm
/ (sensor_height_mm / 2 - y_sensor_mm) - ground_distance_mm`. -/
def spec_ground_range_mm (camera : CameraParams) (bg_height_px y_px : ℤ) : ℚ :=
  camera.focal_length_mm * camera.camera_height_mm
      / (camera.sensor_height_mm / 2 - spec_y_sensor_mm camera bg_height_px y_px)
    - camera.ground_distance_mm

/-- The occupied sensor height formula of the specification:
`h_mm = (sensor_height_mm / 2 - y_sensor_mm)
- focal_length_mm * (camera_height_mm - 1000 * H)
/ (ground_distance_mm + ground_range_mm)`. -/
def spec_h_mm (camera : CameraParams) (bg_height_px y_px : ℤ)
    (object_height_m : ℚ) : ℚ :=
  (camera.sensor_height_mm / 2 - spec_y_sensor_mm camera bg_height_px y_px)
    - camera.focal_length_mm * (camera.camera_height_mm - 1000 * object_height_m)
      / (camera.ground_distance_mm + spec_ground_range_mm camera bg_height_px y_px)

/-- An image with constant pixel value, used for concrete instances. -/
def constImage (h w : ℕ) (v : ℕ) : ColorImage :=
  ⟨h, w, fun _ _ _ => v⟩

/-- An alpha mask with constant opacity, used for concrete instances. -/
def constAlpha (h w : ℕ) (a : ℚ) : AlphaMask :=
  ⟨h, w, fun _ _ => a⟩

/-- A concrete stand-in for the colour resize: right dimensions, black pixels. -/
def zeroResizeBgr : ColorImage → ℕ → ℕ → ColorImage :=
  fun _ w h => ⟨h, w, fun _ _ _ => 0⟩

/-- A concrete stand-in for the alpha resize: right dimensions, zero opacity. -/
def zeroResizeAlpha : AlphaMask → ℕ → ℕ → AlphaMask :=
  fun _ w h => ⟨h, w, fun _ _ => 0⟩

/-- A concrete stand-in for the alpha resize with full opacity everywhere. -/
def oneResizeAlpha : AlphaMask → ℕ → ℕ → AlphaMask :=
  fun _ w h => ⟨h, w, fun _ _ => 1⟩

/-- Concrete run of the solver: reference camera, background height 3000,
anchor row 1800, object height 0.4 m gives 75 pixels. -/
theorem solver_ref_75 : compute_object_size_px refCamera 3000 1800 (2/5) = some 75 := by
  norm_num [compute_object_size_px, pixel_per_mm, x_y_mm, x_r_mm, h_mm, pyInt, refCamera]

/-- Concrete run of the solver: reference camera, background height 3000,
anchor row 1800, object height 0.008 m gives 1 pixel. -/
theorem solver_ref_1 : compute_object_size_px refCamera 3000 1800 (1/125) = some 1 := by
  norm_num [compute_object_size_px, pixel_per_mm, x_y_mm, x_r_mm, h_mm, pyInt, refCamera]

/-- Concrete run of the width scaling: a 250 x 400 (w x h) object scaled to
height 75 gets width int(0.625 * 75) = int(46.875) = 46. -/
theorem width_ref_46 : targetWidth 250 400 75 = 46 := by
  norm_num [targetWidth, pyInt]

/-- Concrete run of the width scaling: a 200 x 400 (w x h) object scaled to
height 1 gets width int(0.5) = 0. -/
theorem width_ref_0 : targetWidth 200 400 1 = 0 := by
  norm_num [targetWidth, pyInt]

/-- The code coordinate `(bg_height_px - y_px) / pixel_per_mm` equals the
specification formula `(bg_height_px - y_px) * sensor_height_mm / bg_height_px`. -/
theorem x_y_mm_eq_spec (camera : CameraParams) (bg_height_px y_px : ℤ) :
    x_y_mm camera bg_height_px y_px = spec_y_sensor_mm camera bg_height_px y_px := by
  unfold x_y_mm spec_y_sensor_mm pixel_per_mm
  exact div_div_eq_mul_div _ _ _

/-- The code ground range equals the specification ground range formula. -/
theorem x_r_mm_eq_spec (camera : CameraParams) (bg_height_px y_px : ℤ) :
    x_r_mm camera bg_height_px y_px = spec_ground_range_mm camera bg_height_px y_px := by
  unfold x_r_mm spec_ground_range_mm
  rw [x_y_mm_eq_spec]

/-- The code sensor height occupied equals the specification formula. -/
theorem h_mm_eq_spec (camera : CameraParams) (bg_height_px y_px : ℤ)
    (object_height_m : ℚ) :
    h_mm camera bg_height_px y_px object_height_m
      = spec_h_mm camera bg_height_px y_px object_height_m := by
  unfold h_mm spec_h_mm
  rw [x_r_mm_eq_spec, x_y_mm_eq_spec]
  ring

/-- The denominator of the second division of the solver, written in closed
form: `ground_distance_mm + x_r_mm = focal * camera_height / (sensorH/2 - x_y)`. -/
theorem ground_denom_eq (camera : CameraParams) (bg_height_px y_px : ℤ) :
    camera.ground_distance_mm + x_r_mm camera bg_height_px y_px
      = camera.focal_length_mm * camera.camera_height_mm
          / (camera.sensor_height_mm / 2 - x_y_mm camera bg_height_px y_px) := by
  unfold x_r_mm
  ring

/-- Algebraic simplification of `h_mm`: away from the degenerate denominators
it collapses to `(sensorH/2 - x_y) * H_mm / camera_height`. -/
theorem h_mm_closed_form (camera : CameraParams) (bg_height_px y_px : ℤ)
    (object_height_m : ℚ)
    (hf : camera.focal_length_mm ≠ 0)
    (hc : camera.camera_height_mm ≠ 0) :
    h_mm camera bg_height_px y_px object_height_m
      = (camera.sensor_height_mm / 2 - x_y_mm camera bg_height_px y_px)
          * (object_height_m * 1000) / camera.camera_height_mm := by
  unfold h_mm
  rw [ground_denom_eq, div_div_eq_mul_div]
  field_simp
  ring

/-- Truncation toward zero is monotone. -/
theorem pyInt_mono {a b : ℚ} (hab : a ≤ b) : pyInt a ≤ pyInt b := by
  unfold pyInt
  split_ifs with ha hb hb
  · have : -b ≤ -a := neg_le_neg hab
    have := Int.floor_mono this
    omega
  · have h1 : (0 : ℤ) ≤ Int.floor (-a) := by
      apply Int.floor_nonneg.2
      linarith
    have h2 : (0 : ℤ) ≤ Int.floor b := by
      apply Int.floor_nonneg.2
      linarith
    omega
  · exact absurd (lt_of_le_of_lt hab hb) ha
  · exact Int.floor_mono hab

/-- On nonnegative arguments truncation toward zero agrees with floor. -/
theorem pyInt_eq_floor_of_nonneg {q : ℚ} (hq : 0 ≤ q) : pyInt q = Int.floor q := by
  unfold pyInt
  rw [if_neg (not_lt.2 hq)]

/-- An 8-bit value survives the round trip through the float blend cast. -/
theorem npUint8_natCast (n : ℕ) (hn : n < 256) : npUint8 (n : ℚ) = n := by
  unfold npUint8
  rw [pyInt_eq_floor_of_nonneg (by positivity), Int.floor_natCast,
    Int.emod_eq_of_lt (by positivity) (by exact_mod_cast hn)]
  exact Int.toNat_natCast n

/-- Branch selection: in the nondegenerate below-horizon case the solver
returns the truncated product `h_mm * pixel_per_mm`. -/
theorem compute_nondegenerate (camera : CameraParams) (bg_height_px y_px : ℤ)
    (object_height_m : ℚ)
    (h1 : camera.sensor_height_mm ≠ 0)
    (h2 : pixel_per_mm camera bg_height_px ≠ 0)
    (h3 : ¬ x_y_mm camera bg_height_px y_px > camera.sensor_height_mm / 2)
    (h4 : camera.sensor_height_mm / 2 - x_y_mm camera bg_height_px y_px ≠ 0)
    (h5 : camera.ground_distance_mm + x_r_mm camera bg_height_px y_px ≠ 0) :
    compute_object_size_px camera bg_height_px y_px object_height_m
      = some (pyInt (h_mm camera bg_height_px y_px object_height_m
          * pixel_per_mm camera bg_height_px)) := by
  unfold compute_object_size_px
  rw [if_neg h1, if_neg h2, if_neg h3, if_neg h4, if_neg h5]

/-- Branch selection: above the strict horizon guard the solver returns 0. -/
theorem compute_above_horizon (camera : CameraParams) (bg_height_px y_px : ℤ)
    (object_height_m : ℚ)
    (h1 : camera.sensor_height_mm ≠ 0)
    (h2 : pixel_per_mm camera bg_height_px ≠ 0)
    (h3 : x_y_mm camera bg_height_px y_px > camera.sensor_height_mm / 2) :
    compute_object_size_px camera bg_height_px y_px object_height_m = some 0 := by
  unfold compute_object_size_px
  rw [if_neg h1, if_neg h2, if_pos h3]

/-- Branch selection for the success path of `paste_object`: when the solver
returns a positive height, the object has rows, the scaled width is positive
and the destination rectangle fits, the result is the blended composite. -/
theorem paste_object_ok (background object_bgr : ColorImage)
    (object_alpha : AlphaMask) (y_px x_px : ℤ) (object_height_m : ℚ)
    (camera : CameraParams)
    (resize_bgr : ColorImage → ℕ → ℕ → ColorImage)
    (resize_alpha : AlphaMask → ℕ → ℕ → AlphaMask) (target_h : ℤ)
    (hsolve : compute_object_size_px camera (background.h : ℤ) y_px object_height_m
      = some target_h)
    (hpos : 0 < target_h)
    (horig : object_bgr.h ≠ 0)
    (hw : 0 < targetWidth object_bgr.w object_bgr.h target_h)
    (hbounds : ¬(y_px - target_h < 0 ∨ y_px > (background.h : ℤ)
      ∨ x_px - Int.fdiv (targetWidth object_bgr.w object_bgr.h target_h) 2 < 0
      ∨ x_px - Int.fdiv (targetWidth object_bgr.w object_bgr.h target_h) 2
          + targetWidth object_bgr.w object_bgr.h target_h > (background.w : ℤ))) :
    paste_object background object_bgr object_alpha (y_px, x_px) object_height_m
        camera resize_bgr resize_alpha
      = .ok (composedImage background
          (resize_bgr object_bgr
            (targetWidth object_bgr.w object_bgr.h target_h).toNat target_h.toNat)
          (resize_alpha object_alpha
            (targetWidth object_bgr.w object_bgr.h target_h).toNat target_h.toNat)
          (y_px - target_h) y_px
          (x_px - Int.fdiv (targetWidth object_bgr.w object_bgr.h target_h) 2)
          (x_px - Int.fdiv (targetWidth object_bgr.w object_bgr.h target_h) 2
            + targetWidth object_bgr.w object_bgr.h target_h)) := by
  simp only [paste_object]
  rw [hsolve]
  simp only [if_neg (not_le.2 hpos), if_neg horig, if_neg (not_le.2 hw),
    if_neg hbounds]

/-- C1 counterexample: at the camera (15, 36, 24, -1600, 2000), background
height 24, anchor row 16 (inside [0, 24]) and object height 1 m, the base is
below the horizon guard, the geometry is nondegenerate, and the solver
returns -2 while floor(h_mm * ppm) = floor(-2.5) = -3: the final conversion
is not the floor function. -/
theorem C1_counterexample :
    compute_object_size_px ⟨15, 36, 24, -1600, 2000⟩ 24 16 1 = some (-2) ∧
    Int.floor (spec_h_mm ⟨15, 36, 24, -1600, 2000⟩ 24 16 1
        * spec_ppm ⟨15, 36, 24, -1600, 2000⟩ 24) = -3 ∧
    ((-2 : ℤ) ≠ -3) := by
  refine ⟨?_, ?_, by decide⟩
  · norm_num [compute_object_size_px, pixel_per_mm, x_y_mm, x_r_mm, h_mm, pyInt]
  · norm_num [spec_h_mm, spec_ppm, spec_y_sensor_mm, spec_ground_range_mm]

/-- C1 (amended): for every camera, positive bg_height_px, y_px and object
height such that y_sensor_mm is strictly below sensor_height_mm / 2 and the
second denominator is nonzero, the solver returns h_mm * ppm converted with
the Python int conversion, i.e. truncated toward zero (which agrees with
floor only on nonnegative values), with ppm, ground_range_mm and h_mm given
by the formulas of the specification. -/
theorem C1_solver_truncates (camera : CameraParams) (bg_height_px y_px : ℤ)
    (object_height_m : ℚ)
    (hbg : 0 < bg_height_px)
    (hs : camera.sensor_height_mm ≠ 0)
    (hy : spec_y_sensor_mm camera bg_height_px y_px < camera.sensor_height_mm / 2)
    (hg : camera.ground_distance_mm + spec_ground_range_mm camera bg_height_px y_px ≠ 0) :
    compute_object_size_px camera bg_height_px y_px object_height_m
      = some (pyInt (spec_h_mm camera bg_height_px y_px object_height_m
          * spec_ppm camera bg_height_px)) := by
  have hxy := x_y_mm_eq_spec camera bg_height_px y_px
  have h2 : pixel_per_mm camera bg_height_px ≠ 0 := by
    unfold pixel_per_mm
    exact div_ne_zero (Int.cast_ne_zero.2 hbg.ne') hs
  have h3 : ¬ x_y_mm camera bg_height_px y_px > camera.sensor_height_mm / 2 := by
    rw [hxy]
    exact not_lt.2 hy.le
  have h4 : camera.sensor_height_mm / 2 - x_y_mm camera bg_height_px y_px ≠ 0 := by
    rw [hxy]
    exact sub_ne_zero.2 hy.ne'
  have h5 : camera.ground_distance_mm + x_r_mm camera bg_height_px y_px ≠ 0 := by
    rw [x_r_mm_eq_spec]
    exact hg
  rw [compute_nondegenerate camera bg_height_px y_px object_height_m hs h2 h3 h4 h5,
    h_mm_eq_spec]
  rfl

/-- Fact for the C1 witness: the reference anchor row 1800 on a background of
height 3000 lies strictly below the horizon. -/
theorem C1_fact_below_horizon :
    spec_y_sensor_mm refCamera 3000 1800 < refCamera.sensor_height_mm / 2 := by
  norm_num [spec_y_sensor_mm, refCamera]

/-- Fact for the C1 witness: the second denominator is nonzero there. -/
theorem C1_fact_denominator :
    refCamera.ground_distance_mm + spec_ground_range_mm refCamera 3000 1800 ≠ 0 := by
  norm_num [spec_ground_range_mm, spec_y_sensor_mm, refCamera]

/-- Fact for the C1 witness: the reference sensor height is nonzero. -/
theorem refCamera_sensor_nonzero : refCamera.sensor_height_mm ≠ 0 := by
  norm_num [refCamera]

/-- C1 witness: the amended statement applied to the reference camera,
background height 3000, anchor row 1800 and object height 0.4 m. -/
theorem C1_witness :
    (0 : ℤ) < 3000 ∧ refCamera.sensor_height_mm ≠ 0 ∧
    spec_y_sensor_mm refCamera 3000 1800 < refCamera.sensor_height_mm / 2 ∧
    refCamera.ground_distance_mm + spec_ground_range_mm refCamera 3000 1800 ≠ 0 ∧
    compute_object_size_px refCamera 3000 1800 (2/5)
      = some (pyInt (spec_h_mm refCamera 3000 1800 (2/5) * spec_ppm refCamera 3000)) :=
  ⟨by decide, refCamera_sensor_nonzero, C1_fact_below_horizon, C1_fact_denominator,
    C1_solver_truncates refCamera 3000 1800 (2/5) (by decide) refCamera_sensor_nonzero
      C1_fact_below_horizon C1_fact_denominator⟩

/-- C2: for every camera and positive background height, an anchor whose
sensor coordinate lies strictly above sensor_height_mm / 2 makes the solver
return exactly 0; in particular the reference camera with anchor row 0
returns 0 for any positive background height, and `paste_object` at such an
anchor fails with the above-horizon error. -/
theorem C2_horizon_returns_zero :
    (∀ (camera : CameraParams) (bg_height_px y_px : ℤ) (object_height_m : ℚ),
      0 < bg_height_px →
      camera.sensor_height_mm / 2 < spec_y_sensor_mm camera bg_height_px y_px →
      compute_object_size_px camera bg_height_px y_px object_height_m = some 0) ∧
    (∀ (bg_height_px : ℤ) (object_height_m : ℚ), 0 < bg_height_px →
      compute_object_size_px refCamera bg_height_px 0 object_height_m = some 0) ∧
    (∀ (background object_bgr : ColorImage) (object_alpha : AlphaMask)
      (x_px : ℤ) (object_height_m : ℚ)
      (resize_bgr : ColorImage → ℕ → ℕ → ColorImage)
      (resize_alpha : AlphaMask → ℕ → ℕ → AlphaMask),
      0 < background.h →
      paste_object background object_bgr object_alpha (0, x_px) object_height_m
          refCamera resize_bgr resize_alpha
        = .error .aboveHorizon) := by
  have key : ∀ (camera : CameraParams) (bg_height_px y_px : ℤ)
      (object_height_m : ℚ), 0 < bg_height_px →
      camera.sensor_height_mm / 2 < spec_y_sensor_mm camera bg_height_px y_px →
      compute_object_size_px camera bg_height_px y_px object_height_m = some 0 := by
    intro camera bg_height_px y_px object_height_m hbg hy
    by_cases hs : camera.sensor_height_mm = 0
    · exfalso
      unfold spec_y_sensor_mm at hy
      rw [hs] at hy
      simp at hy
    · refine compute_above_horizon camera bg_height_px y_px object_height_m hs ?_ ?_
      · exact div_ne_zero (Int.cast_ne_zero.2 hbg.ne') hs
      · rw [x_y_mm_eq_spec]
        exact hy
  have keyRef : ∀ (bg_height_px : ℤ) (object_height_m : ℚ), 0 < bg_height_px →
      compute_object_size_px refCamera bg_height_px 0 object_height_m = some 0 := by
    intro bg_height_px object_height_m hbg
    refine key refCamera bg_height_px 0 object_height_m hbg ?_
    have hb : ((bg_height_px : ℚ)) ≠ 0 := Int.cast_ne_zero.2 hbg.ne'
    unfold spec_y_sensor_mm refCamera
    rw [show ((0 : ℤ) : ℚ) = 0 by norm_num, sub_zero, mul_comm, mul_div_assoc,
      div_self hb]
    norm_num
  refine ⟨key, keyRef, ?_⟩
  intro background object_bgr object_alpha x_px object_height_m rb ra hbg
  have h0 := keyRef (background.h : ℤ) object_height_m (by exact_mod_cast hbg)
  simp only [paste_object]
  rw [h0]
  simp

/-- Fact for the C2 witness: anchor row 100 on a background of height 3000
projects strictly above the horizon of the reference camera. -/
theorem C2_fact_above_horizon :
    refCamera.sensor_height_mm / 2 < spec_y_sensor_mm refCamera 3000 100 := by
  norm_num [spec_y_sensor_mm, refCamera]

/-- C2 witness: the three parts applied to concrete inputs (reference camera,
background height 3000, anchor rows 100 and 0, concrete images). -/
theorem C2_witness :
    compute_object_size_px refCamera 3000 100 1 = some 0 ∧
    compute_object_size_px refCamera 3000 0 1 = some 0 ∧
    paste_object (constImage 3000 4000 7) (constImage 400 200 9)
        (constAlpha 400 200 1) (0, 100) 1 refCamera zeroResizeBgr zeroResizeAlpha
      = .error .aboveHorizon :=
  ⟨C2_horizon_returns_zero.1 refCamera 3000 100 1 (by decide) C2_fact_above_horizon,
   C2_horizon_returns_zero.2.1 3000 1 (by decide),
   C2_horizon_returns_zero.2.2 (constImage 3000 4000 7) (constImage 400 200 9)
     (constAlpha 400 200 1) 100 1 zeroResizeBgr zeroResizeAlpha (by decide)⟩

/-- C3 counterexample: at the reference camera, background 3000 x 4000,
anchor (1800, -5), object 200 wide by 400 tall and object height 0.008 m,
the solver returns the positive height 1, the destination rectangle has
left < 0 (so the out-of-bounds condition of the claim holds), yet
`paste_object` does not fail with the out-of-bounds error: the scaled width
is 0 and the `cv2.resize` failure on an empty size comes first. -/
theorem C3_counterexample :
    compute_object_size_px refCamera 3000 1800 (1/125) = some 1 ∧ (0 : ℤ) < 1 ∧
    ((-5 : ℤ) - Int.fdiv (targetWidth 200 400 1) 2 < 0) ∧
    paste_object (constImage 3000 4000 7) (constImage 400 200 9)
        (constAlpha 400 200 (1/2)) (1800, -5) (1/125) refCamera
        zeroResizeBgr zeroResizeAlpha = .error .resizeEmpty ∧
    (Except.error PasteError.resizeEmpty
      ≠ (Except.error PasteError.outOfBounds : Except PasteError ColorImage)) := by
  refine ⟨solver_ref_1, by decide, ?_, ?_, by simp⟩
  · rw [width_ref_0]
    decide
  · norm_num [paste_object, compute_object_size_px, pixel_per_mm, x_y_mm, x_r_mm,
      h_mm, pyInt, refCamera, constImage, targetWidth]

/-- C3 (amended): when the solver returns target_h > 0, the object has rows
and the scaled width target_w is positive (so that the resize succeeds), the
destination rectangle is top = y_px - target_h, bottom = y_px,
left = x_px - target_w // 2, right = left + target_w, and `paste_object`
fails with the out-of-bounds error exactly when
top < 0 or bottom > bg_h or left < 0 or right > bg_w; on that failure no
output image is produced and the background value is untouched. -/
theorem C3_bounds_iff (background object_bgr : ColorImage)
    (object_alpha : AlphaMask) (y_px x_px : ℤ) (object_height_m : ℚ)
    (camera : CameraParams)
    (resize_bgr : ColorImage → ℕ → ℕ → ColorImage)
    (resize_alpha : AlphaMask → ℕ → ℕ → AlphaMask) (target_h : ℤ)
    (hsolve : compute_object_size_px camera (background.h : ℤ) y_px object_height_m
      = some target_h)
    (hpos : 0 < target_h)
    (horig : object_bgr.h ≠ 0)
    (hw : 0 < targetWidth object_bgr.w object_bgr.h target_h) :
    (paste_object background object_bgr object_alpha (y_px, x_px) object_height_m
        camera resize_bgr resize_alpha = .error .outOfBounds)
    ↔ (y_px - target_h < 0 ∨ y_px > (background.h : ℤ)
        ∨ x_px - Int.fdiv (targetWidth object_bgr.w object_bgr.h target_h) 2 < 0
        ∨ x_px - Int.fdiv (targetWidth object_bgr.w object_bgr.h target_h) 2
            + targetWidth object_bgr.w object_bgr.h target_h
          > (background.w : ℤ)) := by
  simp only [paste_object]
  rw [hsolve]
  simp only [if_neg (not_le.2 hpos), if_neg horig, if_neg (not_le.2 hw)]
  by_cases hb : y_px - target_h < 0 ∨ y_px > (background.h : ℤ)
      ∨ x_px - Int.fdiv (targetWidth object_bgr.w object_bgr.h target_h) 2 < 0
      ∨ x_px - Int.fdiv (targetWidth object_bgr.w object_bgr.h target_h) 2
          + targetWidth object_bgr.w object_bgr.h target_h > (background.w : ℤ)
  · rw [if_pos hb]
    exact iff_of_true rfl hb
  · rw [if_neg hb]
    exact iff_of_false (by simp) hb

/-- C3 witness: the amended statement applied to the reference camera with
background 3000 x 4000, object 250 x 400, anchor (1800, 3), height 0.4 m:
the solver gives 75, the width 46 is positive, and the placement fails
out-of-bounds precisely because left = 3 - 23 is negative. -/
theorem C3_witness :
    (paste_object (constImage 3000 4000 7) (constImage 400 250 9)
        (constAlpha 400 250 (1/2)) (1800, 3) (2/5) refCamera
        zeroResizeBgr zeroResizeAlpha = .error .outOfBounds)
    ↔ ((1800 : ℤ) - 75 < 0 ∨ (1800 : ℤ) > ((constImage 3000 4000 7).h : ℤ)
        ∨ (3 : ℤ) - Int.fdiv (targetWidth 250 400 75) 2 < 0
        ∨ (3 : ℤ) - Int.fdiv (targetWidth 250 400 75) 2 + targetWidth 250 400 75
          > ((constImage 3000 4000 7).w : ℤ)) :=
  C3_bounds_iff (constImage 3000 4000 7) (constImage 400 250 9)
    (constAlpha 400 250 (1/2)) 1800 3 (2/5) refCamera zeroResizeBgr
    zeroResizeAlpha 75 solver_ref_75 (by decide) (by decide)
    (show (0 : ℤ) < targetWidth 250 400 75 by rw [width_ref_46]; decide)

/-- C4 counterexample: a successful placement (reference camera, background
3000 x 4000, object 250 wide by 400 tall, anchor (1800, 2000), height 0.4 m)
in which the solver returns 75 and the scaled width is int(46.875) = 46,
while rounding to nearest would give 47: the width is truncated, not
rounded. -/
theorem C4_counterexample :
    (paste_object (constImage 3000 4000 7) (constImage 400 250 9)
        (constAlpha 400 250 (1/2)) (1800, 2000) (2/5) refCamera
        zeroResizeBgr zeroResizeAlpha).isOk = true ∧
    compute_object_size_px refCamera 3000 1800 (2/5) = some 75 ∧
    targetWidth 250 400 75 = 46 ∧
    round ((250 : ℚ) / 400 * 75) = 47 ∧ ((46 : ℤ) ≠ 47) := by
  refine ⟨?_, solver_ref_75, width_ref_46, ?_, by decide⟩
  · rw [paste_object_ok (constImage 3000 4000 7) (constImage 400 250 9)
      (constAlpha 400 250 (1/2)) 1800 2000 (2/5) refCamera zeroResizeBgr
      zeroResizeAlpha 75 solver_ref_75 (by decide) (by decide)
      (show (0 : ℤ) < targetWidth 250 400 75 by rw [width_ref_46]; decide)
      (by rw [show targetWidth (constImage 400 250 9).w (constImage 400 250 9).h 75
            = 46 from width_ref_46]
          decide)]
    rfl
  · rw [round_eq]
    norm_num

/-- C4 (amended): for a nonnegative solved height the scaled width is the
Python int conversion of target_h * orig_w / orig_h, i.e. its floor (the
value is nonnegative), and it differs from the exact aspect-preserving width
by strictly less than one pixel. -/
theorem C4_width_truncates (orig_w orig_h : ℕ) (target_h : ℤ)
    (hh : orig_h ≠ 0) (hth : 0 ≤ target_h) :
    targetWidth orig_w orig_h target_h
        = Int.floor ((orig_w : ℚ) / (orig_h : ℚ) * (target_h : ℚ)) ∧
    |(targetWidth orig_w orig_h target_h : ℚ)
        - (orig_w : ℚ) / (orig_h : ℚ) * (target_h : ℚ)| < 1 := by
  have ht0 : (0 : ℚ) ≤ (target_h : ℚ) := by exact_mod_cast hth
  have hq : 0 ≤ (orig_w : ℚ) / (orig_h : ℚ) * (target_h : ℚ) :=
    mul_nonneg (by positivity) ht0
  refine ⟨?_, ?_⟩
  · unfold targetWidth
    exact pyInt_eq_floor_of_nonneg hq
  · unfold targetWidth
    rw [pyInt_eq_floor_of_nonneg hq, abs_sub_lt_iff]
    constructor
    · have := Int.floor_le ((orig_w : ℚ) / (orig_h : ℚ) * (target_h : ℚ))
      linarith
    · have := Int.lt_floor_add_one ((orig_w : ℚ) / (orig_h : ℚ) * (target_h : ℚ))
      linarith

/-- C4 witness: the amended statement applied to a 250 x 400 object at
solved height 75: the width is 46 = floor(46.875), within one pixel of the
exact 46.875. -/
theorem C4_witness :
    targetWidth 250 400 75 = Int.floor ((250 : ℚ) / (400 : ℚ) * (75 : ℚ)) ∧
    |(targetWidth 250 400 75 : ℚ) - (250 : ℚ) / (400 : ℚ) * (75 : ℚ)| < 1 :=
  C4_width_truncates 250 400 75 (by decide) (by decide)

/-- C5: the compositor operates on a copy: the copy equals the background
by value, the success result is exactly the copy with the blended rectangle
assigned, every pixel outside the destination rectangle equals the
background, and every pixel inside it is the alpha blend of the resized
object with the corresponding background pixel. -/
theorem C5_copy_and_frame (background object_bgr : ColorImage)
    (object_alpha : AlphaMask) (y_px x_px : ℤ) (object_height_m : ℚ)
    (camera : CameraParams)
    (resize_bgr : ColorImage → ℕ → ℕ → ColorImage)
    (resize_alpha : AlphaMask → ℕ → ℕ → AlphaMask) (target_h : ℤ)
    (hsolve : compute_object_size_px camera (background.h : ℤ) y_px object_height_m
      = some target_h)
    (hpos : 0 < target_h)
    (horig : object_bgr.h ≠ 0)
    (hw : 0 < targetWidth object_bgr.w object_bgr.h target_h)
    (hbounds : ¬(y_px - target_h < 0 ∨ y_px > (background.h : ℤ)
      ∨ x_px - Int.fdiv (targetWidth object_bgr.w object_bgr.h target_h) 2 < 0
      ∨ x_px - Int.fdiv (targetWidth object_bgr.w object_bgr.h target_h) 2
          + targetWidth object_bgr.w object_bgr.h target_h > (background.w : ℤ))) :
    npCopy background = background ∧
    paste_object background object_bgr object_alpha (y_px, x_px) object_height_m
        camera resize_bgr resize_alpha
      = .ok (composedImage background
          (resize_bgr object_bgr
            (targetWidth object_bgr.w object_bgr.h target_h).toNat target_h.toNat)
          (resize_alpha object_alpha
            (targetWidth object_bgr.w object_bgr.h target_h).toNat target_h.toNat)
          (y_px - target_h) y_px
          (x_px - Int.fdiv (targetWidth object_bgr.w object_bgr.h target_h) 2)
          (x_px - Int.fdiv (targetWidth object_bgr.w object_bgr.h target_h) 2
            + targetWidth object_bgr.w object_bgr.h target_h)) ∧
    (∀ (i j : ℤ) (c : Fin 3),
      ¬(y_px - target_h ≤ i ∧ i < y_px
          ∧ x_px - Int.fdiv (targetWidth object_bgr.w object_bgr.h target_h) 2 ≤ j
          ∧ j < x_px - Int.fdiv (targetWidth object_bgr.w object_bgr.h target_h) 2
              + targetWidth object_bgr.w object_bgr.h target_h) →
      (composedImage background
          (resize_bgr object_bgr
            (targetWidth object_bgr.w object_bgr.h target_h).toNat target_h.toNat)
          (resize_alpha object_alpha
            (targetWidth object_bgr.w object_bgr.h target_h).toNat target_h.toNat)
          (y_px - target_h) y_px
          (x_px - Int.fdiv (targetWidth object_bgr.w object_bgr.h target_h) 2)
          (x_px - Int.fdiv (targetWidth object_bgr.w object_bgr.h target_h) 2
            + targetWidth object_bgr.w object_bgr.h target_h)).px i j c
        = background.px i j c) ∧
    (∀ (i j : ℤ) (c : Fin 3),
      (y_px - target_h ≤ i ∧ i < y_px
          ∧ x_px - Int.fdiv (targetWidth object_bgr.w object_bgr.h target_h) 2 ≤ j
          ∧ j < x_px - Int.fdiv (targetWidth object_bgr.w object_bgr.h target_h) 2
              + targetWidth object_bgr.w object_bgr.h target_h) →
      (composedImage background
          (resize_bgr object_bgr
            (targetWidth object_bgr.w object_bgr.h target_h).toNat target_h.toNat)
          (resize_alpha object_alpha
            (targetWidth object_bgr.w object_bgr.h target_h).toNat target_h.toNat)
          (y_px - target_h) y_px
          (x_px - Int.fdiv (targetWidth object_bgr.w object_bgr.h target_h) 2)
          (x_px - Int.fdiv (targetWidth object_bgr.w object_bgr.h target_h) 2
            + targetWidth object_bgr.w object_bgr.h target_h)).px i j c
        = blendPixel
            ((resize_bgr object_bgr
              (targetWidth object_bgr.w object_bgr.h target_h).toNat
              target_h.toNat).px (i - (y_px - target_h))
              (j - (x_px - Int.fdiv (targetWidth object_bgr.w object_bgr.h target_h) 2)) c)
            ((resize_alpha object_alpha
              (targetWidth object_bgr.w object_bgr.h target_h).toNat
              target_h.toNat).px (i - (y_px - target_h))
              (j - (x_px - Int.fdiv (targetWidth object_bgr.w object_bgr.h target_h) 2)))
            (background.px i j c)) := by
  refine ⟨rfl, paste_object_ok background object_bgr object_alpha y_px x_px
    object_height_m camera resize_bgr resize_alpha target_h hsolve hpos horig hw
    hbounds, ?_, ?_⟩
  · intro i j c hne
    simp only [composedImage, sliceAssign]
    rw [if_neg hne]
    rfl
  · intro i j c hin
    simp only [composedImage, sliceAssign, npCopy]
    rw [if_pos hin,
      show y_px - target_h + (i - (y_px - target_h)) = i from by ring,
      show x_px - Int.fdiv (targetWidth object_bgr.w object_bgr.h target_h) 2
          + (j - (x_px - Int.fdiv (targetWidth object_bgr.w object_bgr.h target_h) 2))
        = j from by ring]

/-- C5 witness: the copy-and-frame statement applied to the reference
placement (background 3000 x 4000, object 250 x 400, anchor (1800, 2000),
height 0.4 m): the copy equals the background and the pixel (0, 0), outside
the destination rectangle, is untouched. -/
theorem C5_witness :
    npCopy (constImage 3000 4000 7) = constImage 3000 4000 7 ∧
    (composedImage (constImage 3000 4000 7)
        (zeroResizeBgr (constImage 400 250 9)
          (targetWidth (constImage 400 250 9).w (constImage 400 250 9).h 75).toNat
          (75 : ℤ).toNat)
        (zeroResizeAlpha (constAlpha 400 250 (1/2))
          (targetWidth (constImage 400 250 9).w (constImage 400 250 9).h 75).toNat
          (75 : ℤ).toNat)
        ((1800 : ℤ) - 75) 1800
        ((2000 : ℤ) - Int.fdiv
          (targetWidth (constImage 400 250 9).w (constImage 400 250 9).h 75) 2)
        ((2000 : ℤ) - Int.fdiv
          (targetWidth (constImage 400 250 9).w (constImage 400 250 9).h 75) 2
          + targetWidth (constImage 400 250 9).w (constImage 400 250 9).h 75)).px 0 0 0
      = (constImage 3000 4000 7).px 0 0 0 := by
  have T := C5_copy_and_frame (constImage 3000 4000 7) (constImage 400 250 9)
    (constAlpha 400 250 (1/2)) 1800 2000 (2/5) refCamera zeroResizeBgr
    zeroResizeAlpha 75 solver_ref_75 (by decide) (by decide)
    (show (0 : ℤ) < targetWidth 250 400 75 by rw [width_ref_46]; decide)
    (by rw [show targetWidth (constImage 400 250 9).w (constImage 400 250 9).h 75
          = 46 from width_ref_46]
        decide)
  exact ⟨T.1, T.2.2.1 0 0 0 (by
    rw [show targetWidth (constImage 400 250 9).w (constImage 400 250 9).h 75
        = 46 from width_ref_46]
    decide)⟩

/-- C6 counterexample: the input (reference camera, background height 2,
anchor row 1, object height 1 m) lies inside the documented domain of the
solver (0 <= y_px <= bg_height_px, positive height), yet the solver raises:
the first denominator is exactly zero, which the strict horizon guard does
not catch, so the implementation divides by zero instead of returning. -/
theorem C6_counterexample :
    compute_object_size_px refCamera 2 1 1 = none ∧
    (0 : ℤ) ≤ 1 ∧ (1 : ℤ) ≤ 2 ∧ (0 : ℚ) < 1 ∧
    (Option.none : Option ℤ).isSome = false := by
  refine ⟨?_, by decide, by decide, by norm_num, rfl⟩
  norm_num [compute_object_size_px, pixel_per_mm, x_y_mm, refCamera]

/-- C6 (amended): the solver raises no exception whenever its two
denominators (and the preliminary pixel-density divisions) are nonzero, and
`paste_object` fails with the above-horizon error exactly when the solver
returns a value target_h <= 0; that failure is distinct from the
out-of-bounds failure. -/
theorem C6_solver_total_and_error_mapping :
    (∀ (camera : CameraParams) (bg_height_px y_px : ℤ) (object_height_m : ℚ),
      camera.sensor_height_mm ≠ 0 →
      pixel_per_mm camera bg_height_px ≠ 0 →
      camera.sensor_height_mm / 2 - x_y_mm camera bg_height_px y_px ≠ 0 →
      camera.ground_distance_mm + x_r_mm camera bg_height_px y_px ≠ 0 →
      (compute_object_size_px camera bg_height_px y_px object_height_m).isSome
        = true) ∧
    (∀ (background object_bgr : ColorImage) (object_alpha : AlphaMask)
      (y_px x_px : ℤ) (object_height_m : ℚ) (camera : CameraParams)
      (resize_bgr : ColorImage → ℕ → ℕ → ColorImage)
      (resize_alpha : AlphaMask → ℕ → ℕ → AlphaMask),
      (paste_object background object_bgr object_alpha (y_px, x_px)
          object_height_m camera resize_bgr resize_alpha = .error .aboveHorizon
        ↔ ∃ t, compute_object_size_px camera (background.h : ℤ) y_px
            object_height_m = some t ∧ t ≤ 0)) ∧
    PasteError.aboveHorizon ≠ PasteError.outOfBounds := by
  refine ⟨?_, ?_, by simp⟩
  · intro camera bg_height_px y_px object_height_m h1 h2 h4 h5
    by_cases h3 : x_y_mm camera bg_height_px y_px > camera.sensor_height_mm / 2
    · rw [compute_above_horizon camera bg_height_px y_px object_height_m h1 h2 h3]
      rfl
    · rw [compute_nondegenerate camera bg_height_px y_px object_height_m h1 h2 h3
        h4 h5]
      rfl
  · intro background object_bgr object_alpha y_px x_px object_height_m camera rb ra
    simp only [paste_object]
    cases hsolve : compute_object_size_px camera (background.h : ℤ) y_px
        object_height_m with
    | none => simp
    | some t =>
      by_cases ht : t ≤ 0
      · simp only [if_pos ht]
        exact iff_of_true trivial ⟨t, rfl, ht⟩
      · simp only [if_neg ht]
        refine iff_of_false ?_ ?_
        · split_ifs <;> simp
        · rintro ⟨u, hu, hle⟩
          injection hu with h
          omega

/-- Fact for the C6 witness: the first solver denominator is nonzero at
anchor row 1000 on a background of height 3000. -/
theorem C6_fact_first_denominator :
    refCamera.sensor_height_mm / 2 - x_y_mm refCamera 3000 1000 ≠ 0 := by
  norm_num [x_y_mm, pixel_per_mm, refCamera]

/-- Fact for the C6 witness: the second solver denominator is nonzero there. -/
theorem C6_fact_second_denominator :
    refCamera.ground_distance_mm + x_r_mm refCamera 3000 1000 ≠ 0 := by
  norm_num [x_r_mm, x_y_mm, pixel_per_mm, refCamera]

/-- Fact for the C6 witness: the pixel density is nonzero for height 3000. -/
theorem C6_fact_density : pixel_per_mm refCamera 3000 ≠ 0 := by
  norm_num [pixel_per_mm, refCamera]

/-- C6 witness: the amended statement applied to concrete inputs: the solver
returns a value at (reference camera, 3000, 1000, 1 m), the error mapping
holds for a concrete placement at anchor (0, 5), and the two errors differ. -/
theorem C6_witness :
    (compute_object_size_px refCamera 3000 1000 1).isSome = true ∧
    (paste_object (constImage 3000 4000 7) (constImage 400 250 9)
        (constAlpha 400 250 (1/2)) (0, 5) 1 refCamera zeroResizeBgr
        zeroResizeAlpha = .error .aboveHorizon
      ↔ ∃ t, compute_object_size_px refCamera ((constImage 3000 4000 7).h : ℤ) 0 1
          = some t ∧ t ≤ 0) ∧
    PasteError.aboveHorizon ≠ PasteError.outOfBounds :=
  ⟨C6_solver_total_and_error_mapping.1 refCamera 3000 1000 1
      refCamera_sensor_nonzero C6_fact_density C6_fact_first_denominator
      C6_fact_second_denominator,
   C6_solver_total_and_error_mapping.2.1 (constImage 3000 4000 7)
      (constImage 400 250 9) (constAlpha 400 250 (1/2)) 0 5 1 refCamera
      zeroResizeBgr zeroResizeAlpha,
   C6_solver_total_and_error_mapping.2.2⟩

/-- C7 counterexample: at the reference camera, background height 4 and
anchor row 2 the first denominator is exactly zero, and the solver does not
return the 0 sentinel: it raises (modelled as returning no value). -/
theorem C7_counterexample :
    compute_object_size_px refCamera 4 2 1 = none ∧
    refCamera.sensor_height_mm / 2 - x_y_mm refCamera 4 2 = 0 ∧
    (Option.none ≠ some (0 : ℤ)) := by
  refine ⟨?_, ?_, by simp⟩
  · norm_num [compute_object_size_px, pixel_per_mm, x_y_mm, refCamera]
  · norm_num [x_y_mm, pixel_per_mm, refCamera]

/-- C7 (amended): when either denominator of the solver is exactly zero (the
first with the horizon guard passed, or the second with the first nonzero),
the solver raises a ZeroDivisionError, modelled as returning no value; the
division sites are not guarded and the degenerate geometry is not
normalized to the 0 sentinel. -/
theorem C7_zero_denominator_raises :
    (∀ (camera : CameraParams) (bg_height_px y_px : ℤ) (object_height_m : ℚ),
      camera.sensor_height_mm ≠ 0 →
      pixel_per_mm camera bg_height_px ≠ 0 →
      ¬ x_y_mm camera bg_height_px y_px > camera.sensor_height_mm / 2 →
      camera.sensor_height_mm / 2 - x_y_mm camera bg_height_px y_px = 0 →
      compute_object_size_px camera bg_height_px y_px object_height_m = none) ∧
    (∀ (camera : CameraParams) (bg_height_px y_px : ℤ) (object_height_m : ℚ),
      camera.sensor_height_mm ≠ 0 →
      pixel_per_mm camera bg_height_px ≠ 0 →
      ¬ x_y_mm camera bg_height_px y_px > camera.sensor_height_mm / 2 →
      camera.sensor_height_mm / 2 - x_y_mm camera bg_height_px y_px ≠ 0 →
      camera.ground_distance_mm + x_r_mm camera bg_height_px y_px = 0 →
      compute_object_size_px camera bg_height_px y_px object_height_m = none) := by
  constructor
  · intro camera bg_height_px y_px object_height_m h1 h2 h3 h4
    unfold compute_object_size_px
    rw [if_neg h1, if_neg h2, if_neg h3, if_pos h4]
  · intro camera bg_height_px y_px object_height_m h1 h2 h3 h4 h5
    unfold compute_object_size_px
    rw [if_neg h1, if_neg h2, if_neg h3, if_neg h4, if_pos h5]

/-- Fact for the C7 witness: density for background height 6 is nonzero. -/
theorem C7_fact_density_six : pixel_per_mm refCamera 6 ≠ 0 := by
  norm_num [pixel_per_mm, refCamera]

/-- Fact for the C7 witness: anchor row 3 of background height 6 does not
pass the strict horizon guard. -/
theorem C7_fact_not_above :
    ¬ x_y_mm refCamera 6 3 > refCamera.sensor_height_mm / 2 := by
  norm_num [x_y_mm, pixel_per_mm, refCamera]

/-- Fact for the C7 witness: the first denominator vanishes there. -/
theorem C7_fact_first_zero :
    refCamera.sensor_height_mm / 2 - x_y_mm refCamera 6 3 = 0 := by
  norm_num [x_y_mm, pixel_per_mm, refCamera]

/-- Fact for the C7 witness: sensor of the zero-height camera is nonzero. -/
theorem C7_fact_sensor_zero_cam :
    CameraParams.sensor_height_mm ⟨15, 36, 24, 0, 2000⟩ ≠ 0 := by
  norm_num

/-- Fact for the C7 witness: density of the zero-height camera, height 24. -/
theorem C7_fact_density_zero_cam : pixel_per_mm ⟨15, 36, 24, 0, 2000⟩ 24 ≠ 0 := by
  norm_num [pixel_per_mm]

/-- Fact for the C7 witness: row 16 of height 24 is below the horizon guard
for the zero-height camera. -/
theorem C7_fact_not_above_zero_cam :
    ¬ x_y_mm ⟨15, 36, 24, 0, 2000⟩ 24 16
      > CameraParams.sensor_height_mm ⟨15, 36, 24, 0, 2000⟩ / 2 := by
  norm_num [x_y_mm, pixel_per_mm]

/-- Fact for the C7 witness: the first denominator is nonzero there. -/
theorem C7_fact_first_nonzero_zero_cam :
    CameraParams.sensor_height_mm ⟨15, 36, 24, 0, 2000⟩ / 2
      - x_y_mm ⟨15, 36, 24, 0, 2000⟩ 24 16 ≠ 0 := by
  norm_num [x_y_mm, pixel_per_mm]

/-- Fact for the C7 witness: the second denominator vanishes for the camera
of height zero. -/
theorem C7_fact_second_zero_zero_cam :
    CameraParams.ground_distance_mm ⟨15, 36, 24, 0, 2000⟩
      + x_r_mm ⟨15, 36, 24, 0, 2000⟩ 24 16 = 0 := by
  norm_num [x_r_mm, x_y_mm, pixel_per_mm]

/-- C7 witness: both parts applied to concrete inputs: the reference camera
at (6, 3) for the vanishing first denominator, and the camera of height 0
at (24, 16) for the vanishing second denominator. -/
theorem C7_witness :
    compute_object_size_px refCamera 6 3 1 = none ∧
    compute_object_size_px ⟨15, 36, 24, 0, 2000⟩ 24 16 1 = none :=
  ⟨C7_zero_denominator_raises.1 refCamera 6 3 1 refCamera_sensor_nonzero
      C7_fact_density_six C7_fact_not_above C7_fact_first_zero,
   C7_zero_denominator_raises.2 ⟨15, 36, 24, 0, 2000⟩ 24 16 1
      C7_fact_sensor_zero_cam C7_fact_density_zero_cam
      C7_fact_not_above_zero_cam C7_fact_first_nonzero_zero_cam
      C7_fact_second_zero_zero_cam⟩

/-- C8: for a fixed camera with positive focal length and sensor height,
positive background height and positive object height, the solved pixel
height is non-decreasing in y_px on anchors whose two denominators are
positive, and it is exactly 0 whenever the sensor coordinate lies strictly
above sensor_height_mm / 2. -/
theorem C8_monotone_in_y :
    (∀ (camera : CameraParams) (bg_height_px y1 y2 : ℤ) (object_height_m : ℚ),
      0 < camera.focal_length_mm → 0 < camera.sensor_height_mm →
      0 < bg_height_px → 0 < object_height_m → y1 ≤ y2 →
      0 < camera.sensor_height_mm / 2 - x_y_mm camera bg_height_px y1 →
      0 < camera.ground_distance_mm + x_r_mm camera bg_height_px y1 →
      0 < camera.sensor_height_mm / 2 - x_y_mm camera bg_height_px y2 →
      0 < camera.ground_distance_mm + x_r_mm camera bg_height_px y2 →
      compute_object_size_px camera bg_height_px y1 object_height_m
          = some (pyInt (h_mm camera bg_height_px y1 object_height_m
              * pixel_per_mm camera bg_height_px)) ∧
      compute_object_size_px camera bg_height_px y2 object_height_m
          = some (pyInt (h_mm camera bg_height_px y2 object_height_m
              * pixel_per_mm camera bg_height_px)) ∧
      pyInt (h_mm camera bg_height_px y1 object_height_m
          * pixel_per_mm camera bg_height_px)
        ≤ pyInt (h_mm camera bg_height_px y2 object_height_m
            * pixel_per_mm camera bg_height_px)) ∧
    (∀ (camera : CameraParams) (bg_height_px y_px : ℤ) (object_height_m : ℚ),
      0 < camera.sensor_height_mm → 0 < bg_height_px →
      camera.sensor_height_mm / 2 < x_y_mm camera bg_height_px y_px →
      compute_object_size_px camera bg_height_px y_px object_height_m
        = some 0) := by
  constructor
  · intro camera bg_height_px y1 y2 object_height_m hf hs hbg hH hy hd1 hg1 hd2 hg2
    have hsne : camera.sensor_height_mm ≠ 0 := hs.ne'
    have hppm : 0 < pixel_per_mm camera bg_height_px :=
      div_pos (by exact_mod_cast hbg) hs
    have hcam : 0 < camera.camera_height_mm := by
      have hg1c := hg1
      rw [ground_denom_eq] at hg1c
      have hfc : 0 < camera.focal_length_mm * camera.camera_height_mm := by
        by_contra hle
        push_neg at hle
        have : camera.focal_length_mm * camera.camera_height_mm
            / (camera.sensor_height_mm / 2 - x_y_mm camera bg_height_px y1) ≤ 0 :=
          div_nonpos_of_nonpos_of_nonneg hle hd1.le
        linarith
      rcases mul_pos_iff.mp hfc with ⟨_, hc⟩ | ⟨hneg, _⟩
      · exact hc
      · linarith
    have e1 := h_mm_closed_form camera bg_height_px y1 object_height_m hf.ne'
      hcam.ne'
    have e2 := h_mm_closed_form camera bg_height_px y2 object_height_m hf.ne'
      hcam.ne'
    have hd12 : camera.sensor_height_mm / 2 - x_y_mm camera bg_height_px y1
        ≤ camera.sensor_height_mm / 2 - x_y_mm camera bg_height_px y2 := by
      have hxy : x_y_mm camera bg_height_px y2 ≤ x_y_mm camera bg_height_px y1 := by
        unfold x_y_mm
        have hnum : ((bg_height_px : ℚ) - (y2 : ℚ))
            ≤ ((bg_height_px : ℚ) - (y1 : ℚ)) := by
          have : (y1 : ℚ) ≤ (y2 : ℚ) := by exact_mod_cast hy
          linarith
        exact (div_le_div_iff_of_pos_right hppm).2 hnum
      linarith
    have hmono : h_mm camera bg_height_px y1 object_height_m
          * pixel_per_mm camera bg_height_px
        ≤ h_mm camera bg_height_px y2 object_height_m
            * pixel_per_mm camera bg_height_px := by
      rw [e1, e2]
      have hstep : (camera.sensor_height_mm / 2 - x_y_mm camera bg_height_px y1)
            * (object_height_m * 1000)
          ≤ (camera.sensor_height_mm / 2 - x_y_mm camera bg_height_px y2)
            * (object_height_m * 1000) :=
        mul_le_mul_of_nonneg_right hd12 (by positivity)
      have hstep2 := (div_le_div_iff_of_pos_right hcam).2 hstep
      exact mul_le_mul_of_nonneg_right hstep2 hppm.le
    refine ⟨?_, ?_, pyInt_mono hmono⟩
    · exact compute_nondegenerate camera bg_height_px y1 object_height_m hsne
        hppm.ne' (not_lt.2 (by linarith)) hd1.ne' hg1.ne'
    · exact compute_nondegenerate camera bg_height_px y2 object_height_m hsne
        hppm.ne' (not_lt.2 (by linarith)) hd2.ne' hg2.ne'
  · intro camera bg_height_px y_px object_height_m hs hbg hy
    exact compute_above_horizon camera bg_height_px y_px object_height_m hs.ne'
      (div_ne_zero (Int.cast_ne_zero.2 hbg.ne') hs.ne') hy

/-- Fact for the C8 witness: the reference focal length is positive. -/
theorem C8_fact_focal : 0 < refCamera.focal_length_mm := by
  norm_num [refCamera]

/-- Fact for the C8 witness: the reference sensor height is positive. -/
theorem C8_fact_sensor : 0 < refCamera.sensor_height_mm := by
  norm_num [refCamera]

/-- Fact for the C8 witness: the tested object height 0.4 m is positive. -/
theorem C8_fact_height : 0 < (2/5 : ℚ) := by
  norm_num

/-- Fact for the C8 witness: first denominator at anchor row 1700. -/
theorem C8_fact_d_1700 :
    0 < refCamera.sensor_height_mm / 2 - x_y_mm refCamera 3000 1700 := by
  norm_num [x_y_mm, pixel_per_mm, refCamera]

/-- Fact for the C8 witness: second denominator at anchor row 1700. -/
theorem C8_fact_g_1700 :
    0 < refCamera.ground_distance_mm + x_r_mm refCamera 3000 1700 := by
  norm_num [x_r_mm, x_y_mm, pixel_per_mm, refCamera]

/-- Fact for the C8 witness: first denominator at anchor row 1800. -/
theorem C8_fact_d_1800 :
    0 < refCamera.sensor_height_mm / 2 - x_y_mm refCamera 3000 1800 := by
  norm_num [x_y_mm, pixel_per_mm, refCamera]

/-- Fact for the C8 witness: second denominator at anchor row 1800. -/
theorem C8_fact_g_1800 :
    0 < refCamera.ground_distance_mm + x_r_mm refCamera 3000 1800 := by
  norm_num [x_r_mm, x_y_mm, pixel_per_mm, refCamera]

/-- Fact for the C8 witness: anchor row 100 projects above the horizon. -/
theorem C8_fact_above_100 :
    refCamera.sensor_height_mm / 2 < x_y_mm refCamera 3000 100 := by
  norm_num [x_y_mm, pixel_per_mm, refCamera]

/-- C8 witness: monotonicity applied to the reference camera with anchors
1700 and 1800 on a background of height 3000 and object height 0.4 m, and
the exact-zero part applied at anchor row 100. -/
theorem C8_witness :
    (compute_object_size_px refCamera 3000 1700 (2/5)
        = some (pyInt (h_mm refCamera 3000 1700 (2/5)
            * pixel_per_mm refCamera 3000)) ∧
      compute_object_size_px refCamera 3000 1800 (2/5)
        = some (pyInt (h_mm refCamera 3000 1800 (2/5)
            * pixel_per_mm refCamera 3000)) ∧
      pyInt (h_mm refCamera 3000 1700 (2/5) * pixel_per_mm refCamera 3000)
        ≤ pyInt (h_mm refCamera 3000 1800 (2/5) * pixel_per_mm refCamera 3000)) ∧
    compute_object_size_px refCamera 3000 100 (2/5) = some 0 :=
  ⟨C8_monotone_in_y.1 refCamera 3000 1700 1800 (2/5) C8_fact_focal C8_fact_sensor
      (by decide) C8_fact_height (by decide) C8_fact_d_1700 C8_fact_g_1700
      C8_fact_d_1800 C8_fact_g_1800,
   C8_monotone_in_y.2 refCamera 3000 100 (2/5) C8_fact_sensor (by decide)
      C8_fact_above_100⟩

/-- Inside the destination rectangle the composite pixel is the blend of the
resized object pixel with the background pixel underneath. -/
theorem composedImage_px_inside (background rc : ColorImage) (ra : AlphaMask)
    (top bottom left right i j : ℤ) (c : Fin 3)
    (hin : top ≤ i ∧ i < bottom ∧ left ≤ j ∧ j < right) :
    (composedImage background rc ra top bottom left right).px i j c
      = blendPixel (rc.px (i - top) (j - left) c) (ra.px (i - top) (j - left))
          (background.px i j c) := by
  simp only [composedImage, sliceAssign, npCopy]
  rw [if_pos hin, show top + (i - top) = i from by ring,
    show left + (j - left) = j from by ring]

/-- C9: on the success path every pixel of the destination rectangle is
object * alpha + background * (1 - alpha) per channel, cast to the 8-bit
range; with an all-zero resized mask the rectangle equals the background,
and with an all-one resized mask it equals the resized object. -/
theorem C9_blend_formula (background object_bgr : ColorImage)
    (object_alpha : AlphaMask) (y_px x_px : ℤ) (object_height_m : ℚ)
    (camera : CameraParams)
    (resize_bgr : ColorImage → ℕ → ℕ → ColorImage)
    (resize_alpha : AlphaMask → ℕ → ℕ → AlphaMask) (target_h : ℤ)
    (hsolve : compute_object_size_px camera (background.h : ℤ) y_px object_height_m
      = some target_h)
    (hpos : 0 < target_h)
    (horig : object_bgr.h ≠ 0)
    (hw : 0 < targetWidth object_bgr.w object_bgr.h target_h)
    (hbounds : ¬(y_px - target_h < 0 ∨ y_px > (background.h : ℤ)
      ∨ x_px - Int.fdiv (targetWidth object_bgr.w object_bgr.h target_h) 2 < 0
      ∨ x_px - Int.fdiv (targetWidth object_bgr.w object_bgr.h target_h) 2
          + targetWidth object_bgr.w object_bgr.h target_h > (background.w : ℤ))) :
    paste_object background object_bgr object_alpha (y_px, x_px) object_height_m
        camera resize_bgr resize_alpha
      = .ok (composedImage background
          (resize_bgr object_bgr
            (targetWidth object_bgr.w object_bgr.h target_h).toNat target_h.toNat)
          (resize_alpha object_alpha
            (targetWidth object_bgr.w object_bgr.h target_h).toNat target_h.toNat)
          (y_px - target_h) y_px
          (x_px - Int.fdiv (targetWidth object_bgr.w object_bgr.h target_h) 2)
          (x_px - Int.fdiv (targetWidth object_bgr.w object_bgr.h target_h) 2
            + targetWidth object_bgr.w object_bgr.h target_h)) ∧
    (∀ (i j : ℤ) (c : Fin 3),
      (y_px - target_h ≤ i ∧ i < y_px
          ∧ x_px - Int.fdiv (targetWidth object_bgr.w object_bgr.h target_h) 2 ≤ j
          ∧ j < x_px - Int.fdiv (targetWidth object_bgr.w object_bgr.h target_h) 2
              + targetWidth object_bgr.w object_bgr.h target_h) →
      (composedImage background
          (resize_bgr object_bgr
            (targetWidth object_bgr.w object_bgr.h target_h).toNat target_h.toNat)
          (resize_alpha object_alpha
            (targetWidth object_bgr.w object_bgr.h target_h).toNat target_h.toNat)
          (y_px - target_h) y_px
          (x_px - Int.fdiv (targetWidth object_bgr.w object_bgr.h target_h) 2)
          (x_px - Int.fdiv (targetWidth object_bgr.w object_bgr.h target_h) 2
            + targetWidth object_bgr.w object_bgr.h target_h)).px i j c
        = npUint8
            (((resize_bgr object_bgr
                (targetWidth object_bgr.w object_bgr.h target_h).toNat
                target_h.toNat).px (i - (y_px - target_h))
                (j - (x_px - Int.fdiv (targetWidth object_bgr.w object_bgr.h
                  target_h) 2)) c : ℚ)
              * (resize_alpha object_alpha
                  (targetWidth object_bgr.w object_bgr.h target_h).toNat
                  target_h.toNat).px (i - (y_px - target_h))
                  (j - (x_px - Int.fdiv (targetWidth object_bgr.w object_bgr.h
                    target_h) 2))
              + (background.px i j c : ℚ)
                * (1 - (resize_alpha object_alpha
                    (targetWidth object_bgr.w object_bgr.h target_h).toNat
                    target_h.toNat).px (i - (y_px - target_h))
                    (j - (x_px - Int.fdiv (targetWidth object_bgr.w
                      object_bgr.h target_h) 2))))) ∧
    ((∀ (di dj : ℤ),
        (resize_alpha object_alpha
          (targetWidth object_bgr.w object_bgr.h target_h).toNat
          target_h.toNat).px di dj = 0) →
      (∀ (i j : ℤ) (c : Fin 3), background.px i j c < 256) →
      ∀ (i j : ℤ) (c : Fin 3),
      (y_px - target_h ≤ i ∧ i < y_px
          ∧ x_px - Int.fdiv (targetWidth object_bgr.w object_bgr.h target_h) 2 ≤ j
          ∧ j < x_px - Int.fdiv (targetWidth object_bgr.w object_bgr.h target_h) 2
              + targetWidth object_bgr.w object_bgr.h target_h) →
      (composedImage background
          (resize_bgr object_bgr
            (targetWidth object_bgr.w object_bgr.h target_h).toNat target_h.toNat)
          (resize_alpha object_alpha
            (targetWidth object_bgr.w object_bgr.h target_h).toNat target_h.toNat)
          (y_px - target_h) y_px
          (x_px - Int.fdiv (targetWidth object_bgr.w object_bgr.h target_h) 2)
          (x_px - Int.fdiv (targetWidth object_bgr.w object_bgr.h target_h) 2
            + targetWidth object_bgr.w object_bgr.h target_h)).px i j c
        = background.px i j c) ∧
    ((∀ (di dj : ℤ),
        (resize_alpha object_alpha
          (targetWidth object_bgr.w object_bgr.h target_h).toNat
          target_h.toNat).px di dj = 1) →
      (∀ (di dj : ℤ) (c : Fin 3),
        (resize_bgr object_bgr
          (targetWidth object_bgr.w object_bgr.h target_h).toNat
          target_h.toNat).px di dj c < 256) →
      ∀ (i j : ℤ) (c : Fin 3),
      (y_px - target_h ≤ i ∧ i < y_px
          ∧ x_px - Int.fdiv (targetWidth object_bgr.w object_bgr.h target_h) 2 ≤ j
          ∧ j < x_px - Int.fdiv (targetWidth object_bgr.w object_bgr.h target_h) 2
              + targetWidth object_bgr.w object_bgr.h target_h) →
      (composedImage background
          (resize_bgr object_bgr
            (targetWidth object_bgr.w object_bgr.h target_h).toNat target_h.toNat)
          (resize_alpha object_alpha
            (targetWidth object_bgr.w object_bgr.h target_h).toNat target_h.toNat)
          (y_px - target_h) y_px
          (x_px - Int.fdiv (targetWidth object_bgr.w object_bgr.h target_h) 2)
          (x_px - Int.fdiv (targetWidth object_bgr.w object_bgr.h target_h) 2
            + targetWidth object_bgr.w object_bgr.h target_h)).px i j c
        = (resize_bgr object_bgr
            (targetWidth object_bgr.w object_bgr.h target_h).toNat
            target_h.toNat).px (i - (y_px - target_h))
            (j - (x_px - Int.fdiv (targetWidth object_bgr.w object_bgr.h
              target_h) 2)) c) := by
  refine ⟨paste_object_ok background object_bgr object_alpha y_px x_px
    object_height_m camera resize_bgr resize_alpha target_h hsolve hpos horig hw
    hbounds, ?_, ?_, ?_⟩
  · intro i j c hin
    exact composedImage_px_inside background _ _ _ _ _ _ i j c hin
  · intro h0 hbg i j c hin
    rw [composedImage_px_inside background _ _ _ _ _ _ i j c hin]
    unfold blendPixel
    rw [h0]
    rw [show ((resize_bgr object_bgr
        (targetWidth object_bgr.w object_bgr.h target_h).toNat
        target_h.toNat).px (i - (y_px - target_h))
        (j - (x_px - Int.fdiv (targetWidth object_bgr.w object_bgr.h target_h) 2))
        c : ℚ) * 0 + (background.px i j c : ℚ) * (1 - 0)
      = (background.px i j c : ℚ) from by ring]
    exact npUint8_natCast _ (hbg i j c)
  · intro h1 hrc i j c hin
    rw [composedImage_px_inside background _ _ _ _ _ _ i j c hin]
    unfold blendPixel
    rw [h1]
    rw [show ((resize_bgr object_bgr
        (targetWidth object_bgr.w object_bgr.h target_h).toNat
        target_h.toNat).px (i - (y_px - target_h))
        (j - (x_px - Int.fdiv (targetWidth object_bgr.w object_bgr.h target_h) 2))
        c : ℚ) * 1 + (background.px i j c : ℚ) * (1 - 1)
      = ((resize_bgr object_bgr
          (targetWidth object_bgr.w object_bgr.h target_h).toNat
          target_h.toNat).px (i - (y_px - target_h))
          (j - (x_px - Int.fdiv (targetWidth object_bgr.w object_bgr.h target_h)
            2)) c : ℚ) from by ring]
    exact npUint8_natCast _ (hrc _ _ c)

/-- C9 witness: the blend statement applied to the reference placement with
an all-one resized alpha: the pixel (1750, 2000), inside the destination
rectangle, equals the corresponding resized-object pixel. -/
theorem C9_witness :
    (composedImage (constImage 3000 4000 7)
        (zeroResizeBgr (constImage 400 250 9)
          (targetWidth (constImage 400 250 9).w (constImage 400 250 9).h 75).toNat
          (75 : ℤ).toNat)
        (oneResizeAlpha (constAlpha 400 250 (1/2))
          (targetWidth (constImage 400 250 9).w (constImage 400 250 9).h 75).toNat
          (75 : ℤ).toNat)
        ((1800 : ℤ) - 75) 1800
        ((2000 : ℤ) - Int.fdiv (targetWidth (constImage 400 250 9).w
          (constImage 400 250 9).h 75) 2)
        ((2000 : ℤ) - Int.fdiv (targetWidth (constImage 400 250 9).w
          (constImage 400 250 9).h 75) 2
          + targetWidth (constImage 400 250 9).w (constImage 400 250 9).h 75)).px
        1750 2000 0
      = (zeroResizeBgr (constImage 400 250 9)
          (targetWidth (constImage 400 250 9).w (constImage 400 250 9).h 75).toNat
          (75 : ℤ).toNat).px (1750 - ((1800 : ℤ) - 75))
          (2000 - ((2000 : ℤ) - Int.fdiv (targetWidth (constImage 400 250 9).w
            (constImage 400 250 9).h 75) 2)) 0 := by
  have T := C9_blend_formula (constImage 3000 4000 7) (constImage 400 250 9)
    (constAlpha 400 250 (1/2)) 1800 2000 (2/5) refCamera zeroResizeBgr
    oneResizeAlpha 75 solver_ref_75 (by decide) (by decide)
    (show (0 : ℤ) < targetWidth 250 400 75 by rw [width_ref_46]; decide)
    (by rw [show targetWidth (constImage 400 250 9).w (constImage 400 250 9).h 75
          = 46 from width_ref_46]
        decide)
  exact T.2.2.2 (fun _ _ => rfl) (fun _ _ _ => show (0 : ℕ) < 256 by decide)
    1750 2000 0
    (by rw [show targetWidth (constImage 400 250 9).w (constImage 400 250 9).h 75
          = 46 from width_ref_46]
        decide)

/-- C10: a positive solved height does not guarantee a positive scaled width:
with the reference camera, background height 3000, anchor row 1800 and
object height 0.008 m the solver returns 1, a 200 x 400 (w x h) object gets
truncated width int(0.5) = 0, and `paste_object` reaches the resize with an
empty destination size (modelled `resizeEmpty`) instead of failing with one
of the two typed placement errors. -/
theorem C10_positive_height_zero_width :
    compute_object_size_px refCamera 3000 1800 (1/125) = some 1 ∧ (0 : ℤ) < 1 ∧
    targetWidth 200 400 1 = 0 ∧
    paste_object (constImage 3000 4000 5) (constImage 400 200 9)
        (constAlpha 400 200 (1/2)) (1800, 2000) (1/125) refCamera
        zeroResizeBgr zeroResizeAlpha = .error .resizeEmpty ∧
    PasteError.resizeEmpty ≠ PasteError.aboveHorizon ∧
    PasteError.resizeEmpty ≠ PasteError.outOfBounds := by
  refine ⟨solver_ref_1, by decide, width_ref_0, ?_, by simp, by simp⟩
  norm_num [paste_object, compute_object_size_px, pixel_per_mm, x_y_mm, x_r_mm,
    h_mm, pyInt, refCamera, constImage, targetWidth]
